import Mathlib

/-!
Verification of the ROIR / MVRP-explainability refinement pipeline.

Shallow embedding of the JavaScript/TypeScript sources:
 * `src/analyzers/loadAnalyzer.js`      (namespace `LoadAnalyzer`)
 * `src/analyzers/constraintChecker.js` (namespace `ConstraintChecker`)
 * `src/parsers/solutionParser.js`      (namespace `SolutionParser`)
 * `src/modifiers/inputModifier.js`     (namespace `InputModifier`)
 * `src/index.js`                       (namespace `Controller`)
 * the Next.js API client `makeApiCallWithRetry` (namespace `ApiClient`)

Modelling conventions:
 * JS numbers are modelled as `ℤ` where the program only ever holds integers
   (loads, capacities, epoch seconds) and as `ℚ` where genuine ratios appear
   (compliance rates, average gaps, fractional thresholds).  Floating point
   rounding is not modelled.
 * A JS property read that can yield `undefined` is modelled as an `Option`
   value together with explicit comparison helpers that return `false` for
   `undefined` operands, mirroring the semantics of `undefined > 0`,
   `undefined === 0` and `undefined < undefined` (all `false`, since
   `undefined` converts to `NaN` in relational operators and strict equality
   with a number is `false`).
 * `JSON.parse(JSON.stringify(x))` (deep copy) is the identity on the value
   level; reference/aliasing behaviour is modelled separately by a small
   explicit heap (`Heap`) for the claims that speak about mutation isolation.
 * `Array.prototype.sort` with the priority comparator is a stable sort; it is
   embedded as a structurally recursive stable insertion sort
   (`stableSortByPriority`), observationally equal to any stable sort.
-/

/-- JS `x > n` where `x` may be `undefined` (missing property): `undefined`
converts to `NaN` and every `NaN` comparison is `false`. -/
def jsGtNat (x : Option ℕ) (n : ℕ) : Bool :=
  match x with
  | none => false
  | some v => v > n

/-- JS strict equality `x === n` where `x` may be `undefined`: `undefined`
is never strictly equal to a number. -/
def jsEqNat (x : Option ℕ) (n : ℕ) : Bool :=
  match x with
  | none => false
  | some v => v = n

/-- JS `x < y` where either side may be `undefined`: any comparison with
`undefined` (`NaN`) is `false`. -/
def jsLtOpt (x y : Option ℕ) : Bool :=
  match x, y with
  | some a, some b => a < b
  | _, _ => false

/-! ## Data model (solution side)

Solution format (spec §6): `routes[] {vehicle, steps:[{type, load:[amount]}],
summary:{distance, duration}}; unassigned[]`.  Fields of steps not read by the
embedded code (location, arrival, departure, job id) are omitted. -/

/-- One step of a route.  `load` is the optional `load` array of the step; the
solution format carries it as a non-empty array `[amount]` on job steps. -/
structure Step where
  type : String
  load : Option (List ℤ)
deriving Repr, DecidableEq

/-- Per-route summary (`summary:{distance, duration}`). -/
structure RouteSummary where
  distance : ℤ
  duration : ℤ
deriving Repr, DecidableEq

/-- One route of a solution. -/
structure Route where
  vehicle : ℤ
  steps : List Step
  summary : Option RouteSummary
deriving Repr, DecidableEq

/-- A parsed route solution (`routes[]`, `unassigned[]`). -/
structure Solution where
  routes : List Route
  unassigned : List ℤ
deriving Repr, DecidableEq

/-! ## Data model (problem-instance side)

Problem instance format (spec §6): `vehicles[] {id, capacity[],
time_window:[start,end]}; jobs[] {id, delivery[], time_windows:[[start,end],…]};
locations; options.objective; options.constraint{…}`.  `locations` and job
`delivery` amounts are never read by the embedded code and are omitted. -/

/-- A vehicle of the problem instance.  The source stores ids as numeric
strings and converts with `parseInt`/`toString`; the embedding works with the
integer value directly and renders it with `toString` in error messages. -/
structure Vehicle where
  id : ℤ
  capacity : List ℤ
  time_window : ℤ × ℤ
  addedForLoadBalancing : Bool := false
deriving Repr, DecidableEq

/-- A job of the problem instance. -/
structure Job where
  id : ℤ
  time_windows : List (ℤ × ℤ)
deriving Repr, DecidableEq

/-- The objective descriptor (`options.objective`): a `travel_cost` plus an
optional `custom:{type, value}` pair. -/
structure Objective where
  travel_cost : String
  custom : Option (String × String)
deriving Repr, DecidableEq

/-- The optional constraint map (`options.constraint`). -/
structure ConstraintMap where
  max_vehicle_overtime : Option ℤ := none
  max_visit_lateness : Option ℤ := none
deriving Repr, DecidableEq

/-- `options` of the problem instance. -/
structure InstanceOptions where
  objective : Objective
  constraint : Option ConstraintMap
deriving Repr, DecidableEq

/-- A problem instance. -/
structure ProblemInstance where
  vehicles : List Vehicle
  jobs : List Job
  options : InstanceOptions
deriving Repr, DecidableEq

namespace LoadAnalyzer

/-- `loadAnalyzer.js` lines 62–67, `calculateRouteLoad`: filter the job-typed
steps and sum `step.load ? step.load[0] : 0`.  A present load array is
non-empty in the solution format; its head is taken, further entries ignored.
(In JS a present-but-empty `load` would make the sum `NaN`; such solutions do
not occur in the format and are not modelled.) -/
def calculateRouteLoad (route : Route) : ℤ :=
  ((route.steps.filter (fun step => step.type == "job")).map
    (fun step =>
      match step.load with
      | none => 0
      | some l => l.headD 0)).foldl (· + ·) 0

/-- One entry of `analysis.loadGaps` (lines 29–39). -/
structure LoadGap where
  vehicleId : ℤ
  currentLoad : ℤ
  targetLoad : ℤ
  gap : ℤ
  gapPercentage : ℚ
deriving Repr, DecidableEq

/-- `analysis.summary` as built by `calculateLoadSummary` (lines 153–180). -/
structure LoadSummary where
  totalLoadGap : ℤ
  averageGap : ℚ
  routesBelowCount : ℕ
  routesAboveCount : ℕ
  totalRoutes : ℕ
  totalJobsAssigned : ℕ
  complianceRate : ℚ
  targetMinLoad : ℤ
deriving Repr, DecidableEq

/-- The analysis object returned by `analyzeLoadDistribution` (lines 8–15).
The source builds it as an object literal with exactly the fields below
(`optimizationOpportunities`, computed by `identifyOptimizationOpportunities`,
is never read by any embedded caller and is omitted).  The object has **no**
`routeCount` property; `index.js` nevertheless reads `analysis.routeCount`,
which therefore yields `undefined` — modelled by the explicit `routeCount`
field being `none`. -/
structure LoadAnalysis where
  targetMinLoad : ℤ
  routesBelowTarget : List Route
  routesAboveTarget : List Route
  loadGaps : List LoadGap
  summary : LoadSummary
  routeCount : Option ℕ
deriving Repr, DecidableEq

/-- `calculateLoadSummary` (lines 153–180), taking the pieces of the analysis
it reads.  `complianceRate = totalRoutes > 0 ? (routesAboveCount/totalRoutes)
* 100 : 0`. -/
def calculateLoadSummary (routesBelowTarget routesAboveTarget : List Route)
    (loadGaps : List LoadGap) (targetMinLoad : ℤ) : LoadSummary :=
  let totalLoadGap : ℤ := (loadGaps.map (fun g => g.gap)).foldl (· + ·) 0
  let averageGap : ℚ :=
    if loadGaps.length > 0 then (totalLoadGap : ℚ) / (loadGaps.length : ℚ) else 0
  let routesBelowCount := routesBelowTarget.length
  let routesAboveCount := routesAboveTarget.length
  let totalRoutes := routesBelowCount + routesAboveCount
  let complianceRate : ℚ :=
    if totalRoutes > 0 then ((routesAboveCount : ℚ) / (totalRoutes : ℚ)) * 100 else 0
  let totalJobsAssigned :=
    ((routesBelowTarget ++ routesAboveTarget).map
      (fun route => (route.steps.filter (fun step => step.type == "job")).length)).foldl
      (· + ·) 0
  { totalLoadGap := totalLoadGap
    averageGap := averageGap
    routesBelowCount := routesBelowCount
    routesAboveCount := routesAboveCount
    totalRoutes := totalRoutes
    totalJobsAssigned := totalJobsAssigned
    complianceRate := complianceRate
    targetMinLoad := targetMinLoad }

/-- `analyzeLoadDistribution` (lines 4–60): classify routes against the
target, compute the per-route gaps and the summary. -/
def analyzeLoadDistribution (solution : Solution) (targetMinLoad : ℤ) :
    LoadAnalysis :=
  let routesBelowTarget :=
    solution.routes.filter (fun route => calculateRouteLoad route < targetMinLoad)
  let routesAboveTarget :=
    solution.routes.filter (fun route => calculateRouteLoad route ≥ targetMinLoad)
  let loadGaps := routesBelowTarget.map (fun route =>
    let currentLoad := calculateRouteLoad route
    let gap := targetMinLoad - currentLoad
    { vehicleId := route.vehicle
      currentLoad := currentLoad
      targetLoad := targetMinLoad
      gap := gap
      gapPercentage := ((gap : ℚ) / (targetMinLoad : ℚ)) * 100 : LoadGap })
  { targetMinLoad := targetMinLoad
    routesBelowTarget := routesBelowTarget
    routesAboveTarget := routesAboveTarget
    loadGaps := loadGaps
    summary := calculateLoadSummary routesBelowTarget routesAboveTarget loadGaps targetMinLoad
    routeCount := none }

end LoadAnalyzer

namespace ConstraintChecker

/-- A violation or warning entry.  Only the discriminating fields (`type`,
`severity`) are modelled; the numeric payload fields (current/required values,
gaps, excesses) are never read by the embedded callers and are omitted. -/
structure Violation where
  type : String
  severity : String
deriving Repr, DecidableEq

/-- The constraint map handed to `checkSolutionConstraints`.  Each field is
optional; the source guards each check with JS truthiness, so a present value
of `0` also disables the check. -/
structure Constraints where
  minLoadPerRoute : Option ℤ := none
  maxLoadPerRoute : Option ℤ := none
  maxRoutes : Option ℤ := none
  maxDistance : Option ℤ := none
  maxDuration : Option ℤ := none
deriving Repr, DecidableEq

/-- JS truthiness of an optional number: `undefined`, `null` and `0` are
falsy. -/
def jsTruthy (x : Option ℤ) : Bool :=
  match x with
  | none => false
  | some v => v ≠ 0

/-- The result of `checkSolutionConstraints` (lines 8–13).  The `summary`
field built by `generateConstraintSummary` is never read by the embedded
callers and is omitted. -/
structure CheckResult where
  passed : Bool
  violations : List Violation
  warnings : List Violation
deriving Repr, DecidableEq

/-- `constraintChecker.js` lines 227–232, `calculateRouteLoad`: identical to
the load analyzer's version. -/
def calculateRouteLoad (route : Route) : ℤ :=
  ((route.steps.filter (fun step => step.type == "job")).map
    (fun step =>
      match step.load with
      | none => 0
      | some l => l.headD 0)).foldl (· + ·) 0

/-- `checkMinLoadConstraint` (lines 74–105): a high-severity violation when a
route's load is strictly below the bound, a medium warning when it is within
10% above the bound (`totalLoad < minLoad * 1.1`). -/
def checkMinLoadConstraint (solution : Solution) (minLoad : ℤ) :
    List Violation × List Violation :=
  let violations := solution.routes.filterMap (fun route =>
    let totalLoad := calculateRouteLoad route
    if totalLoad < minLoad then
      some { type := "min_load_violation", severity := "high" }
    else none)
  let warnings := solution.routes.filterMap (fun route =>
    let totalLoad := calculateRouteLoad route
    if totalLoad < minLoad then none
    else if (totalLoad : ℚ) < (minLoad : ℚ) * 1.1 then
      some { type := "min_load_warning", severity := "medium" }
    else none)
  (violations, warnings)

/-- `checkMaxLoadConstraint` (lines 107–136). -/
def checkMaxLoadConstraint (solution : Solution) (maxLoad : ℤ) :
    List Violation × List Violation :=
  let violations := solution.routes.filterMap (fun route =>
    if calculateRouteLoad route > maxLoad then
      some { type := "max_load_violation", severity := "high" }
    else none)
  let warnings := solution.routes.filterMap (fun route =>
    let totalLoad := calculateRouteLoad route
    if totalLoad > maxLoad then none
    else if (totalLoad : ℚ) > (maxLoad : ℚ) * 0.9 then
      some { type := "max_load_warning", severity := "medium" }
    else none)
  (violations, warnings)

/-- `checkMaxRoutesConstraint` (lines 138–163). -/
def checkMaxRoutesConstraint (solution : Solution) (maxRoutes : ℤ) :
    List Violation × List Violation :=
  let routeCount : ℤ := solution.routes.length
  if routeCount > maxRoutes then
    ([{ type := "max_routes_violation", severity := "high" }], [])
  else if (routeCount : ℚ) > (maxRoutes : ℚ) * 0.9 then
    ([], [{ type := "max_routes_warning", severity := "medium" }])
  else ([], [])

/-- `checkMaxDistanceConstraint` (lines 165–194): the route distance defaults
to 0 when the route has no `summary`. -/
def checkMaxDistanceConstraint (solution : Solution) (maxDistance : ℤ) :
    List Violation × List Violation :=
  let violations := solution.routes.filterMap (fun route =>
    let d := (route.summary.map (fun s => s.distance)).getD 0
    if d > maxDistance then
      some { type := "max_distance_violation", severity := "high" }
    else none)
  let warnings := solution.routes.filterMap (fun route =>
    let d := (route.summary.map (fun s => s.distance)).getD 0
    if d > maxDistance then none
    else if (d : ℚ) > (maxDistance : ℚ) * 0.9 then
      some { type := "max_distance_warning", severity := "medium" }
    else none)
  (violations, warnings)

/-- `checkMaxDurationConstraint` (lines 196–225). -/
def checkMaxDurationConstraint (solution : Solution) (maxDuration : ℤ) :
    List Violation × List Violation :=
  let violations := solution.routes.filterMap (fun route =>
    let d := (route.summary.map (fun s => s.duration)).getD 0
    if d > maxDuration then
      some { type := "max_duration_violation", severity := "high" }
    else none)
  let warnings := solution.routes.filterMap (fun route =>
    let d := (route.summary.map (fun s => s.duration)).getD 0
    if d > maxDuration then none
    else if (d : ℚ) > (maxDuration : ℚ) * 0.9 then
      some { type := "max_duration_warning", severity := "medium" }
    else none)
  (violations, warnings)

/-- Run one optional check under JS truthiness and append its output. -/
def runCheck (flag : Option ℤ) (check : ℤ → List Violation × List Violation)
    (acc : List Violation × List Violation) : List Violation × List Violation :=
  match flag with
  | none => acc
  | some bound =>
      if bound ≠ 0 then
        let out := check bound
        (acc.1 ++ out.1, acc.2 ++ out.2)
      else acc

/-- `checkSolutionConstraints` (lines 4–72): an empty route list short-circuits
with a single critical violation; otherwise every requested constraint is
checked in order and `passed := violations.length == 0`. -/
def checkSolutionConstraints (solution : Solution) (constraints : Constraints) :
    CheckResult :=
  if solution.routes.isEmpty then
    { passed := false
      violations := [{ type := "no_routes_violation", severity := "critical" }]
      warnings := [] }
  else
    let acc : List Violation × List Violation := ([], [])
    let acc := runCheck constraints.minLoadPerRoute
      (checkMinLoadConstraint solution) acc
    let acc := runCheck constraints.maxLoadPerRoute
      (checkMaxLoadConstraint solution) acc
    let acc := runCheck constraints.maxRoutes
      (checkMaxRoutesConstraint solution) acc
    let acc := runCheck constraints.maxDistance
      (checkMaxDistanceConstraint solution) acc
    let acc := runCheck constraints.maxDuration
      (checkMaxDurationConstraint solution) acc
    { passed := acc.1.isEmpty
      violations := acc.1
      warnings := acc.2 }

end ConstraintChecker

namespace SolutionParser

/-- The per-route record returned by `analyzeRoute` (`solutionParser.js`
lines 88–108).  The `steps`/`summary` echo fields are omitted; the numeric
fields are modelled. -/
structure RouteAnalysis where
  vehicleId : ℤ
  jobCount : ℕ
  totalLoad : ℤ
  totalDistance : ℤ
  totalDuration : ℤ
deriving Repr, DecidableEq

/-- `analyzeRoute` (lines 88–108): the same job-step/`load[0]` summation as
the two analyzers, plus distance/duration from the optional summary. -/
def analyzeRoute (route : Route) : RouteAnalysis :=
  let jobSteps := route.steps.filter (fun step => step.type == "job")
  { vehicleId := route.vehicle
    jobCount := jobSteps.length
    totalLoad :=
      (jobSteps.map (fun step =>
        match step.load with
        | none => 0
        | some l => l.headD 0)).foldl (· + ·) 0
    totalDistance := (route.summary.map (fun s => s.distance)).getD 0
    totalDuration := (route.summary.map (fun s => s.duration)).getD 0 }

end SolutionParser

namespace InputModifier

/-- A refinement strategy, the tagged objects produced by the two generators
(`inputModifier.js`).  The free-text `description` field is never read by the
embedded code and is omitted.  The source's `switch` on `strategy.type` has a
throwing default branch; the inductive is closed over the five produced tags,
so that branch is unreachable. -/
inductive Strategy where
  | objectiveModification (objective : String) (priority : String)
  | capacityAdjustment (vehicleIds : List ℤ) (newCapacity : ℤ) (priority : String)
  | vehicleAddition (count : ℤ) (capacity : ℤ) (timeWindow : ℤ × ℤ)
      (iteration : ℕ) (priority : String)
  | timeWindowRelaxation (relaxationMinutes : ℤ) (priority : String)
  | timeWindowSoftening (relaxationMinutes : ℤ) (priority : String)
deriving Repr, DecidableEq

/-- The `priority` property of a strategy object. -/
def Strategy.priority : Strategy → String
  | .objectiveModification _ p => p
  | .capacityAdjustment _ _ p => p
  | .vehicleAddition _ _ _ _ p => p
  | .timeWindowRelaxation _ p => p
  | .timeWindowSoftening _ p => p

/-- Discriminator for `strategy.type === 'vehicle_addition'`. -/
def Strategy.isVehicleAddition : Strategy → Bool
  | .vehicleAddition _ _ _ _ _ => true
  | _ => false

/-- `priorityOrder = { high: 3, medium: 2, low: 1 }` used by both generators'
sort comparator.  An unknown priority would index to `undefined` (`NaN`
difference, treated as 0 by the sort); the generators only produce the three
known strings. -/
def priorityVal (p : String) : ℤ :=
  if p = "high" then 3 else if p = "medium" then 2 else if p = "low" then 1 else 0

/-- Stable insertion of one strategy into an already-sorted (descending by
priority) list: the new element precedes the existing ones of equal priority
iff it preceded them in the original order (`foldr` feeds elements from the
right, so the inserted element is the earlier one). -/
def insertByPriority (x : Strategy) : List Strategy → List Strategy
  | [] => [x]
  | y :: ys =>
      if priorityVal x.priority ≥ priorityVal y.priority then x :: y :: ys
      else y :: insertByPriority x ys

/-- `strategies.sort((a, b) => priorityOrder[b.priority] -
priorityOrder[a.priority])`: a stable descending sort by priority, embedded as
a stable insertion sort. -/
def stableSortByPriority (l : List Strategy) : List Strategy :=
  l.foldr insertByPriority []

/-- `modifyObjective` (`inputModifier.js` lines 30–58): replace
`options.objective` wholesale according to the objective tag; an unrecognised
tag leaves the instance unchanged. -/
def modifyObjective (input : ProblemInstance) (objective : String) :
    ProblemInstance :=
  if objective = "minimize_duration" then
    { input with options := { input.options with
        objective := { travel_cost := "duration", custom := none } } }
  else if objective = "maximize_load_balance" then
    { input with options := { input.options with
        objective := { travel_cost := "distance",
                       custom := some ("min-max", "tasks") } } }
  else if objective = "minimize_vehicles_with_load_constraint" then
    { input with options := { input.options with
        objective := { travel_cost := "distance",
                       custom := some ("min", "vehicles") } } }
  else input

/-- Replace the capacity of the first vehicle with the given id
(`input.vehicles.find(v => v.id === vehicleId)` then mutate). -/
def setCapacityOfFirst (vehicles : List Vehicle) (vehicleId : ℤ)
    (newCapacity : ℤ) : List Vehicle :=
  match vehicles with
  | [] => []
  | v :: vs =>
      if v.id = vehicleId then { v with capacity := [newCapacity] } :: vs
      else v :: setCapacityOfFirst vs vehicleId newCapacity

/-- `modifyCapacities` (lines 60–77). -/
def modifyCapacities (input : ProblemInstance) (vehicleIds : List ℤ)
    (newCapacity : ℤ) : ProblemInstance :=
  let newVehicles :=
    vehicleIds.foldl (fun vs vehicleId => setCapacityOfFirst vs vehicleId newCapacity)
      input.vehicles
  { input with vehicles := newVehicles }

/-- `addVehicles` (lines 79–104): append `count` vehicles with ids one past
the current maximum id, the strategy's capacity (a falsy capacity — absent or
0 — falls back to `targetMinLoad`, default 8000) and the strategy's time
window.  `Math.max(...ids)` over an empty vehicle list is `-Infinity` in JS;
instances always carry at least one vehicle and the empty case is given by
`getD 0` here. -/
def addVehicles (input : ProblemInstance) (count : ℤ) (capacity : ℤ)
    (timeWindow : ℤ × ℤ) (targetMinLoad : ℤ) : ProblemInstance :=
  let baseVehicleId : ℤ := ((input.vehicles.map (fun v => v.id)).max?).getD 0 + 1
  let cap := if capacity = 0 then targetMinLoad else capacity
  let newVehicles := (List.range count.toNat).map (fun i =>
    { id := baseVehicleId + i
      time_window := timeWindow
      capacity := [cap]
      addedForLoadBalancing := true : Vehicle })
  { input with vehicles := input.vehicles ++ newVehicles }

/-- `relaxTimeWindows` (lines 106–133): widen every job window and every
vehicle window symmetrically by `relaxationMinutes * 60` seconds. -/
def relaxTimeWindows (input : ProblemInstance) (relaxationMinutes : ℤ) :
    ProblemInstance :=
  { input with
    jobs := input.jobs.map (fun job =>
      { job with time_windows := job.time_windows.map (fun w =>
          (w.1 - relaxationMinutes * 60, w.2 + relaxationMinutes * 60)) })
    vehicles := input.vehicles.map (fun v =>
      { v with time_window :=
          (v.time_window.1 - relaxationMinutes * 60,
           v.time_window.2 + relaxationMinutes * 60) }) }

/-- `addTimeWindowSoftening` (lines 135–153): leave windows untouched; set
`constraint.max_vehicle_overtime` to the relaxation in seconds and
`constraint.max_visit_lateness` to the same value capped at 1800 s (30 min),
creating the constraint map if absent. -/
def addTimeWindowSoftening (input : ProblemInstance) (relaxationMinutes : ℤ) :
    ProblemInstance :=
  let base := (input.options.constraint).getD {}
  let relaxationSeconds := relaxationMinutes * 60
  { input with options := { input.options with
      constraint := some { base with
        max_vehicle_overtime := some relaxationSeconds
        max_visit_lateness := some (min relaxationSeconds 1800) } } }

/-- `modifyForLoadBalancing` (lines 4–28): deep-copy (identity on values) and
dispatch on the strategy tag.  `targetMinLoad` defaults to 8000 at the JS
call sites used by `applyMultipleStrategies`. -/
def modifyForLoadBalancing (input : ProblemInstance) (strategy : Strategy)
    (targetMinLoad : ℤ := 8000) : ProblemInstance :=
  match strategy with
  | .objectiveModification objective _ => modifyObjective input objective
  | .capacityAdjustment vehicleIds newCapacity _ =>
      modifyCapacities input vehicleIds newCapacity
  | .vehicleAddition count capacity timeWindow _ _ =>
      addVehicles input count capacity timeWindow targetMinLoad
  | .timeWindowRelaxation relaxationMinutes _ =>
      relaxTimeWindows input relaxationMinutes
  | .timeWindowSoftening relaxationMinutes _ =>
      addTimeWindowSoftening input relaxationMinutes

/-- The fixed softening cycle `[30, 45, 60, 15, 90, 120]` (line 181). -/
def relaxationCycle : List ℤ := [30, 45, 60, 15, 90, 120]

/-- The fixed capacity cycle `[14000, 12000, 16000, 10000, 18000]`
(line 193). -/
def capacityCycle : List ℤ := [14000, 12000, 16000, 10000, 18000]

/-- Strategy 1 of `createLoadBalancingStrategy` (lines 160–178): the optional
objective modification — below 30% compliance an objective from the fixed
cycle indexed by `iteration % 3`, below 50% always `maximize_load_balance`,
otherwise nothing; priority high. -/
def objectiveStrategyPart (analysis : LoadAnalyzer.LoadAnalysis)
    (iteration : ℕ) : List Strategy :=
  if analysis.summary.complianceRate < 30 then
    let objectives := ["maximize_load_balance",
      "minimize_vehicles_with_load_constraint", "minimize_duration"]
    [.objectiveModification (objectives.getD (iteration % 3) "") "high"]
  else if analysis.summary.complianceRate < 50 then
    [.objectiveModification "maximize_load_balance" "high"]
  else []

/-- Strategy 2 of `createLoadBalancingStrategy` (lines 180–188): the
unconditional time-window softening with minutes from the fixed cycle indexed
by `iteration % 6`; priority high. -/
def softeningStrategyPart (iteration : ℕ) : Strategy :=
  .timeWindowSoftening (relaxationCycle.getD (iteration % 6) 0) "high"

/-- Strategy 3 of `createLoadBalancingStrategy` (lines 190–206): when the
below-target routes outnumber half the at/above-target routes, one vehicle
addition of `min(ceil(totalLoadGap / 12000) + iteration % 3, 15)` vehicles of
the capacity from the fixed cycle indexed by `iteration % 5`; priority
medium. -/
def vehicleAdditionPart (analysis : LoadAnalyzer.LoadAnalysis)
    (iteration : ℕ) : List Strategy :=
  if (analysis.routesBelowTarget.length : ℚ) >
      (analysis.routesAboveTarget.length : ℚ) * 0.5 then
    [.vehicleAddition
      (min (⌈(analysis.summary.totalLoadGap : ℚ) / 12000⌉ + (iteration % 3 : ℕ)) 15)
      (capacityCycle.getD (iteration % 5) 0) (1719282600, 1719315000)
      iteration "medium"]
  else []

/-- `createLoadBalancingStrategy` (lines 155–216): the three parts in
generation order, sorted by priority.  `successfulIteration` is a parameter of
the source function but is never read in its body. -/
def createLoadBalancingStrategy (analysis : LoadAnalyzer.LoadAnalysis)
    (iteration : ℕ) ( successfulIteration : ℕ := 0) : List Strategy :=
  let _ := successfulIteration
  stableSortByPriority (objectiveStrategyPart analysis iteration ++
    [softeningStrategyPart iteration] ++ vehicleAdditionPart analysis iteration)

/-- `createRelaxedLoadBalancingStrategy` (lines 218–263): the fixed relaxed
fallback set — aggressive softening (120 min, high), a vehicle addition sized
from the load gap over reference capacity 8000 plus 5, capped at 15 (high), a
60-minute window relaxation (medium) and the simplest objective (medium). -/
def createRelaxedLoadBalancingStrategy (analysis : LoadAnalyzer.LoadAnalysis)
    (iteration : ℕ) ( successfulIteration : ℕ := 0) : List Strategy :=
  let neededVehicles : ℤ := ⌈(analysis.summary.totalLoadGap : ℚ) / 8000⌉
  let _ := successfulIteration
  stableSortByPriority
    [.timeWindowSoftening 120 "high",
     .vehicleAddition (min (neededVehicles + 5) 15) 10000 (1719282600, 1719315000)
       iteration "high",
     .timeWindowRelaxation 60 "medium",
     .objectiveModification "minimize_vehicles_with_load_constraint" "medium"]

/-- `applyMultipleStrategies` (lines 265–276) at the value level: deep-copy
(identity on values) then apply each strategy in list order. -/
def applyMultipleStrategies (input : ProblemInstance)
    (strategies : List Strategy) : ProblemInstance :=
  strategies.foldl (fun acc s => modifyForLoadBalancing acc s) input

/-- The list of validation error messages collected by
`validateModifiedInput` (lines 278–314), in source order: capacity errors for
every vehicle, then vehicle time-window errors, then job time-window errors
(with the window index).  `vehicle.capacity[0] <= 0` on a missing first
capacity compares `undefined` and is `false`. -/
def validationErrors (input : ProblemInstance) : List String :=
  (input.vehicles.filterMap (fun v =>
    match v.capacity.head? with
    | none => none
    | some c =>
        if c ≤ 0 then
          some ("Vehicle " ++ toString v.id ++ " has invalid capacity: " ++ toString c)
        else none)) ++
  (input.vehicles.filterMap (fun v =>
    if v.time_window.1 ≥ v.time_window.2 then
      some ("Vehicle " ++ toString v.id ++ " has invalid time window: " ++
        toString v.time_window.1 ++ " >= " ++ toString v.time_window.2)
    else none)) ++
  (input.jobs.flatMap (fun job =>
    (job.time_windows.enum).filterMap (fun iw =>
      if iw.2.1 ≥ iw.2.2 then
        some ("Job " ++ toString job.id ++ " time window " ++ toString iw.1 ++
          " is invalid: " ++ toString iw.2.1 ++ " >= " ++ toString iw.2.2)
      else none)))

/-- `validateModifiedInput` (lines 278–314): throw (here: `Except.error`) with
every collected violation when any check fails, otherwise return `true`. -/
def validateModifiedInput (input : ProblemInstance) :
    Except (List String) Bool :=
  let errors := validationErrors input
  if errors.isEmpty then .ok true else .error errors

/-- An explicit heap of problem instances, for the aliasing behaviour of the
deep-copy-by-serialize mutation isolation: each `JSON.parse(JSON.stringify(…))`
allocates a fresh cell, and strategies only ever write the fresh cells. -/
abbrev Heap := List ProblemInstance

/-- The default instance used only to totalise heap reads (never reachable in
the theorems, which require the reference to be live). -/
def emptyInstance : ProblemInstance :=
  { vehicles := [], jobs := [],
    options := { objective := { travel_cost := "", custom := none },
                 constraint := none } }

/-- One strategy application step on the heap: `modifyForLoadBalancing` deep
copies its argument into a fresh object (a fresh cell) and the local variable
is rebound to it. -/
def applyStrategyHeap (acc : Heap × ℕ) (s : Strategy) : Heap × ℕ :=
  let cur := (acc.1[acc.2]?).getD emptyInstance
  (acc.1 ++ [modifyForLoadBalancing cur s], acc.1.length)

/-- `applyMultipleStrategies` on the heap: allocate the initial deep copy of
the referenced instance, then apply each strategy in order; returns the final
heap and the reference to the result. -/
def applyMultipleStrategiesHeap (h : Heap) (r : ℕ) (strategies : List Strategy) :
    Heap × ℕ :=
  let h₀ := h ++ [(h[r]?).getD emptyInstance]
  strategies.foldl applyStrategyHeap (h₀, h.length)

end InputModifier

namespace Controller

/-- One entry of `this.iterationHistory` (`index.js` lines 208–215 and
264–271).  The `analysis`/`constraintCheck` snapshots and the wall-clock
timestamp are not read by the embedded claims and are omitted; the fields the
claims speak about (`iteration`, `relaxed`, the solution snapshot) are kept. -/
structure IterationRecord where
  iteration : ℕ
  relaxed : Bool
  solution : Solution
deriving Repr, DecidableEq

/-- The mutable run state of `runIterativeOptimization` (lines 142–151 plus
the long-lived fields of the class): the loop locals `currentInput`,
`currentSolution`, `iteration`, `successfulIteration`,
`lastSuccessfulInput/Solution` and the instance fields `bestSolution`,
`iterationHistory`, `totalAttempts`.  `oracleCalls` is pure instrumentation:
it counts the `runOptimization` invocations (Oracle submissions) performed so
far and selects the next scripted Oracle response. -/
structure RunState where
  currentInput : ProblemInstance
  currentSolution : Solution
  iteration : ℕ
  successfulIteration : ℕ
  lastSuccessfulInput : ProblemInstance
  lastSuccessfulSolution : Solution
  bestSolution : Option Solution
  iterationHistory : List IterationRecord
  totalAttempts : ℕ
  oracleCalls : ℕ
deriving Repr, DecidableEq

/-- The Oracle environment: the scripted sequence of submission outcomes, one
per `runOptimization` call in order.  `some sol` models
`{success: true, solution}` (already parsed: `SolutionParser.parse` validates
the shape and returns the routes/unassigned data unchanged); `none` models
`{success: false}`.  An exhausted script also reads as failure. -/
def callOracle (responses : List (Option Solution)) (s : RunState) :
    Option Solution × RunState :=
  (responses.getD s.oracleCalls none, { s with oracleCalls := s.oracleCalls + 1 })

/-- `isBetterSolution` (`index.js` lines 323–346).  The reads of
`newAnalysis.routeCount` (line 330) and of both `routeCount` fields
(line 342) hit a property the analyzer result does not have, so they compare
`undefined`: the zero-route rejection and the fewer-routes tie-break both
evaluate over `undefined` operands. -/
def isBetterSolution (minLoad : ℤ) (newSol : Solution)
    (currentBest : Option Solution) : Bool :=
  match currentBest with
  | none => true
  | some best =>
      let newAnalysis := LoadAnalyzer.analyzeLoadDistribution newSol minLoad
      let currentAnalysis := LoadAnalyzer.analyzeLoadDistribution best minLoad
      -- line 330: `if (newAnalysis.routeCount === 0) return false`
      if jsEqNat newAnalysis.routeCount 0 then false
      -- line 336: higher compliance rate wins
      else if newAnalysis.summary.complianceRate >
          currentAnalysis.summary.complianceRate then true
      -- lines 341–343: on equal compliance, `newAnalysis.routeCount <
      -- currentAnalysis.routeCount`
      else if newAnalysis.summary.complianceRate =
          currentAnalysis.summary.complianceRate then
        jsLtOpt newAnalysis.routeCount currentAnalysis.routeCount
      else false

/-- Outcome of one pass of the `while` body (lines 152–293): continue with the
next iteration, `break`, or an exception thrown by `validateModifiedInput`
(which aborts the whole run before the corresponding Oracle submission). -/
inductive LoopOutcome where
  | next (s : RunState)
  | brk (s : RunState)
  | thrown (errors : List String) (s : RunState)
deriving Repr, DecidableEq

/-- One pass of the `while` body of `runIterativeOptimization`
(lines 152–293), in source order: analyze, constraint-check, the goal check of
line 165 (`constraintCheck.passed && analysis.routeCount > 0`), strategy
generation, mutation, validation, submission, then the
successful / degenerate-recovery branches. -/
def loopBody (minLoad : ℤ) (responses : List (Option Solution))
    (s : RunState) : LoopOutcome :=
  let analysis := LoadAnalyzer.analyzeLoadDistribution s.currentSolution minLoad
  let constraints : ConstraintChecker.Constraints :=
    { minLoadPerRoute := some minLoad }
  let constraintCheck :=
    ConstraintChecker.checkSolutionConstraints s.currentSolution constraints
  if constraintCheck.passed && jsGtNat analysis.routeCount 0 then
    -- lines 165–169: goal achieved — adopt as best and break
    .brk { s with bestSolution := some s.currentSolution }
  else
    let strategies := InputModifier.createLoadBalancingStrategy analysis
      s.iteration s.successfulIteration
    let modifiedInput :=
      InputModifier.applyMultipleStrategies s.currentInput strategies
    match InputModifier.validateModifiedInput modifiedInput with
    | .error errs => .thrown errs s
    | .ok _ =>
      let res := callOracle responses s
      let s := res.2
      match res.1 with
      | none =>
          -- lines 184–187: submission failed — break
          .brk s
      | some newSolutionData =>
          let newAnalysis :=
            LoadAnalyzer.analyzeLoadDistribution newSolutionData minLoad
          if newAnalysis.summary.totalRoutes > 0 then
            -- lines 196–224: successful iteration
            let best :=
              if isBetterSolution minLoad newSolutionData s.bestSolution then
                some newSolutionData
              else s.bestSolution
            .next { s with
              currentSolution := newSolutionData
              currentInput := modifiedInput
              lastSuccessfulInput := modifiedInput
              lastSuccessfulSolution := newSolutionData
              successfulIteration := s.iteration
              iterationHistory := s.iterationHistory ++
                [{ iteration := s.iteration, relaxed := false,
                   solution := newSolutionData }]
              bestSolution := best
              totalAttempts := s.totalAttempts + 1
              iteration := s.iteration + 1 }
          else
            -- lines 225–289: degenerate result
            if s.successfulIteration > 0 then
              let s := { s with
                currentInput := s.lastSuccessfulInput
                currentSolution := s.lastSuccessfulSolution }
              let relaxedStrategies :=
                InputModifier.createRelaxedLoadBalancingStrategy
                  (LoadAnalyzer.analyzeLoadDistribution s.currentSolution minLoad)
                  s.iteration s.successfulIteration
              let relaxedInput :=
                InputModifier.applyMultipleStrategies s.currentInput
                  relaxedStrategies
              match InputModifier.validateModifiedInput relaxedInput with
              | .error errs => .thrown errs s
              | .ok _ =>
                let res2 := callOracle responses s
                let s := res2.2
                match res2.1 with
                | some relaxedSolution =>
                    let relaxedAnalysis :=
                      LoadAnalyzer.analyzeLoadDistribution relaxedSolution minLoad
                    -- line 253: `if (relaxedAnalysis.routeCount > 0)`
                    if jsGtNat relaxedAnalysis.routeCount 0 then
                      let best :=
                        if isBetterSolution minLoad relaxedSolution s.bestSolution then
                          some relaxedSolution
                        else s.bestSolution
                      .next { s with
                        currentSolution := relaxedSolution
                        currentInput := relaxedInput
                        lastSuccessfulInput := relaxedInput
                        lastSuccessfulSolution := relaxedSolution
                        successfulIteration := s.iteration
                        iterationHistory := s.iterationHistory ++
                          [{ iteration := s.iteration, relaxed := true,
                             solution := relaxedSolution }]
                        bestSolution := best
                        totalAttempts := s.totalAttempts + 1
                        iteration := s.iteration + 1 }
                    else
                      -- lines 279–281: recovery also degenerate — advance
                      .next { s with
                        totalAttempts := s.totalAttempts + 1
                        iteration := s.iteration + 1 }
                | none =>
                    -- lines 282–284: relaxed submission failed — advance
                    .next { s with
                      totalAttempts := s.totalAttempts + 1
                      iteration := s.iteration + 1 }
            else
              -- lines 285–288: nothing to revert to — break
              .brk s

/-- Result of the whole loop: normal termination (goal met, submission
failure, fatal degenerate, or iteration bound reached) or a thrown validation
error. -/
inductive RunResult where
  | finished (s : RunState)
  | thrown (errors : List String) (s : RunState)
deriving Repr, DecidableEq

/-- The `while (iteration <= maxIterations)` driver, with fuel; each `next`
pass increments `iteration`, so fuel `maxIterations + 1` always suffices. -/
def runIter (minLoad : ℤ) (maxIterations : ℕ)
    (responses : List (Option Solution)) : ℕ → RunState → RunResult
  | 0, s => .finished s
  | fuel + 1, s =>
      if s.iteration ≤ maxIterations then
        match loopBody minLoad responses s with
        | .next s₂ => runIter minLoad maxIterations responses fuel s₂
        | .brk s₂ => .finished s₂
        | .thrown errs s₂ => .thrown errs s₂
      else .finished s

/-- `runIterativeOptimization` (lines 142–298): initial state per lines
145–150, then the loop. -/
def runIterativeOptimization (minLoad : ℤ) (maxIterations : ℕ)
    (responses : List (Option Solution)) (parsedInput : ProblemInstance)
    (initialSolution : Solution) : RunResult :=
  runIter minLoad maxIterations responses (maxIterations + 1)
    { currentInput := parsedInput
      currentSolution := initialSolution
      iteration := 1
      successfulIteration := 0
      lastSuccessfulInput := parsedInput
      lastSuccessfulSolution := initialSolution
      bestSolution := none
      iterationHistory := []
      totalAttempts := 0
      oracleCalls := 0 }

end Controller

namespace ApiClient

/-- Outcome of one `fetch` attempt inside `makeApiCallWithRetry` (the Next.js
client, lines 525–584): a 2xx response with a parsed body (abstracted to a
number), a non-ok HTTP status, or a thrown network error. -/
inductive FetchOutcome where
  | ok (value : ℕ)
  | httpError (status : ℕ)
  | networkError
deriving Repr, DecidableEq

/-- Observable trace of `makeApiCallWithRetry`: the returned body (`none` when
the call ultimately threw), the number of fetch attempts performed, and the
list of backoff delays slept between attempts. -/
structure RetryTrace where
  result : Option ℕ
  attempts : ℕ
  sleeps : List ℕ
deriving Repr, DecidableEq

/-- The `for (attempt = 1; attempt <= maxRetries; attempt++)` body of
`makeApiCallWithRetry`.  On a non-ok response a client error (4xx) is thrown
at line 552 — but that `throw` sits inside the `try`, so it lands in the
`catch` of lines 570–580, which sleeps and retries whenever
`attempt < maxRetries`; a server error (5xx) sleeps and `continue`s inside the
`try` (lines 557–562) under the same condition; a thrown network error is
caught and retried the same way.  Every retry doubles the delay. -/
def retryAux (responses : ℕ → FetchOutcome) (maxRetries : ℕ) :
    ℕ → ℕ → ℕ → List ℕ → RetryTrace
  | 0, attempt, _, sleeps =>
      -- loop exhausted without returning: line 584 `throw lastError`
      { result := none, attempts := attempt - 1, sleeps := sleeps }
  | fuel + 1, attempt, delay, sleeps =>
      match responses attempt with
      | .ok v => { result := some v, attempts := attempt, sleeps := sleeps }
      | .httpError status =>
          if 400 ≤ status && status < 500 then
            -- line 552 `throw error`, caught at line 570; retried at 572–577
            if attempt < maxRetries then
              retryAux responses maxRetries fuel (attempt + 1) (delay * 2)
                (sleeps ++ [delay])
            else { result := none, attempts := attempt, sleeps := sleeps }
          else
            -- lines 556–563: server error path
            if attempt < maxRetries then
              retryAux responses maxRetries fuel (attempt + 1) (delay * 2)
                (sleeps ++ [delay])
            else { result := none, attempts := attempt, sleeps := sleeps }
      | .networkError =>
          if attempt < maxRetries then
            retryAux responses maxRetries fuel (attempt + 1) (delay * 2)
              (sleeps ++ [delay])
          else { result := none, attempts := attempt, sleeps := sleeps }

/-- `makeApiCallWithRetry(url, payload, maxRetries = 3, delayMs = 1000)`,
with the per-attempt fetch outcomes supplied as an environment. -/
def makeApiCallWithRetry (responses : ℕ → FetchOutcome)
    (maxRetries : ℕ := 3) (delayMs : ℕ := 1000) : RetryTrace :=
  retryAux responses maxRetries maxRetries 1 delayMs []

end ApiClient

/-! ## Concrete fixtures used by the counterexamples and witnesses -/

/-- A one-job route carrying the given load amount. -/
def soloRoute (vehicleId loadAmount : ℤ) : Route :=
  { vehicle := vehicleId,
    steps := [{ type := "job", load := some [loadAmount] }],
    summary := none }

/-- The degenerate solution: zero routes. -/
def emptySolution : Solution := { routes := [], unassigned := [] }

/-- A solution with one route of load 20 — passes a min-load-10 check. -/
def solGood : Solution := { routes := [soloRoute 1 20], unassigned := [] }

/-- A solution with one route of load 7 (below a target of 10). -/
def solB : Solution := { routes := [soloRoute 1 7], unassigned := [] }

/-- A solution with one route of load 25, used as the recovery response. -/
def solRecovered : Solution := { routes := [soloRoute 1 25], unassigned := [] }

/-- A solution with one route of load 5 (below a target of 10). -/
def solBad : Solution := { routes := [soloRoute 1 5], unassigned := [] }

/-- A small valid problem instance: one vehicle, one job, valid windows. -/
def inputA : ProblemInstance :=
  { vehicles := [{ id := 1, capacity := [100], time_window := (0, 100) }],
    jobs := [{ id := 1, time_windows := [(0, 100)] }],
    options := { objective := { travel_cost := "distance", custom := none },
                 constraint := none } }

/-- The scripted Oracle responses for the degenerate-recovery scenario:
iteration 1 succeeds (one route), iteration 2 is degenerate (zero routes), and
the relaxed recovery resubmission succeeds with one route. -/
def c3Responses : List (Option Solution) :=
  [some solB, some emptySolution, some solRecovered]

/-- The final controller state of the scenario of `C2`: the passing initial
solution is never adopted as best, and one Oracle submission is made. -/
def c2FinalState : Controller.RunState :=
  { currentInput := inputA, currentSolution := solGood, iteration := 1,
    successfulIteration := 0, lastSuccessfulInput := inputA,
    lastSuccessfulSolution := solGood, bestSolution := none,
    iterationHistory := [], totalAttempts := 0, oracleCalls := 1 }

/-- Observations on the final state of the degenerate-recovery scenario: the
run finished with exactly one (non-relaxed) history record, three Oracle
submissions, and the iteration-1 solution as best and current — i.e. the
successful recovery response was never recorded or adopted. -/
def c3Check : Controller.RunResult → Prop := fun r =>
  match r with
  | .finished s =>
      s.iterationHistory.map (fun rec => rec.relaxed) = [false] ∧
      s.oracleCalls = 3 ∧ s.bestSolution = some solB ∧
      s.currentSolution = solB ∧ s.iteration = 3 ∧ s.totalAttempts = 2
  | .thrown _ _ => False

/-- Candidate solution for the tie-break counterexample: 2 routes, loads 20
and 5, so compliance 50% against target 10. -/
def candTwoRoutes : Solution :=
  { routes := [soloRoute 1 20, soloRoute 2 5], unassigned := [] }

/-- Incumbent for the tie-break counterexample: 4 routes, loads 20, 20, 5, 5,
so compliance 50% against target 10. -/
def incFourRoutes : Solution :=
  { routes := [soloRoute 1 20, soloRoute 2 20, soloRoute 3 5, soloRoute 4 5],
    unassigned := [] }

/-- An instance with several validation violations at once: vehicle 7 has
capacity 0, vehicle 8 has an inverted time window, and job 2 has an inverted
time window. -/
def badCapacityInput : ProblemInstance :=
  { vehicles := [{ id := 7, capacity := [0], time_window := (0, 100) },
                 { id := 8, capacity := [50], time_window := (5, 3) }],
    jobs := [{ id := 2, time_windows := [(9, 4)] }],
    options := { objective := { travel_cost := "distance", custom := none },
                 constraint := none } }

/-! ## Shared helper lemmas -/

/-- The `reduce((sum, x) => sum + x, 0)` pattern is the list sum. -/
theorem foldl_add_eq_sum (l : List ℤ) : l.foldl (· + ·) 0 = l.sum :=
  List.sum_eq_foldl.symm

/-- A route's load is the sum of the per-step contributions of its job
steps. -/
theorem calculateRouteLoad_eq_sum (r : Route) :
    LoadAnalyzer.calculateRouteLoad r =
      ((r.steps.filter (fun step => step.type == "job")).map
        (fun step =>
          match step.load with
          | none => 0
          | some l => l.headD 0)).sum := by
  simp [LoadAnalyzer.calculateRouteLoad, foldl_add_eq_sum]

/-- Splitting the routes into below-target and at/above-target is exhaustive:
the two filters partition the route list. -/
theorem length_below_add_above (l : List Route) (t : ℤ) :
    (l.filter (fun r => LoadAnalyzer.calculateRouteLoad r < t)).length +
      (l.filter (fun r => LoadAnalyzer.calculateRouteLoad r ≥ t)).length =
      l.length := by
  induction l with
  | nil => rfl
  | cons a l ih =>
      by_cases h : LoadAnalyzer.calculateRouteLoad a < t
      · have h2 : ¬ (LoadAnalyzer.calculateRouteLoad a ≥ t) := not_le.mpr h
        simp [List.filter_cons, h, h2, ge_iff_le] at ih ⊢
        omega
      · have h2 : LoadAnalyzer.calculateRouteLoad a ≥ t := not_lt.mp h
        simp [List.filter_cons, h, h2, ge_iff_le] at ih ⊢
        omega

/-- Arithmetic core of the compliance-rate invariant: the guarded ratio
`(a/(b+a))·100` lies in [0,100] and reaches 100 exactly when `b = 0` with a
positive denominator. -/
theorem compliance_arith (b a : ℕ) :
    0 ≤ (if b + a > 0 then ((a : ℚ) / ((b + a : ℕ) : ℚ)) * 100 else 0) ∧
    (if b + a > 0 then ((a : ℚ) / ((b + a : ℕ) : ℚ)) * 100 else 0) ≤ 100 ∧
    ((if b + a > 0 then ((a : ℚ) / ((b + a : ℕ) : ℚ)) * 100 else 0) = 100 ↔
      b = 0 ∧ 0 < b + a) := by
  rcases Nat.eq_zero_or_pos (b + a) with hz | hpos
  · rw [if_neg (by omega)]
    refine ⟨le_refl 0, by norm_num, ?_⟩
    constructor
    · intro h; exact absurd h (by norm_num)
    · rintro ⟨-, hp⟩; omega
  · rw [if_pos hpos]
    have hden : (0:ℚ) < ((b + a : ℕ) : ℚ) := by positivity
    have hle : ((a : ℕ) : ℚ) ≤ ((b + a : ℕ) : ℚ) := by
      exact_mod_cast Nat.le_add_left a b
    have h1 : ((a : ℕ) : ℚ) / ((b + a : ℕ) : ℚ) ≤ 1 :=
      div_le_one_of_le hle (le_of_lt hden)
    refine ⟨by positivity, by linarith, ?_⟩
    constructor
    · intro h100
      have hone : ((a : ℕ) : ℚ) / ((b + a : ℕ) : ℚ) = 1 := by linarith
      have heq : ((a : ℕ) : ℚ) = ((b + a : ℕ) : ℚ) :=
        (div_eq_one_iff_eq (ne_of_gt hden)).mp hone
      have : a = b + a := by exact_mod_cast heq
      exact ⟨by omega, hpos⟩
    · rintro ⟨hbz, -⟩
      have haz : 0 < a := by omega
      have : ((a : ℕ) : ℚ) ≠ 0 := by positivity
      rw [hbz]
      rw [Nat.zero_add]
      rw [div_self this]
      norm_num

/-! ## C1 — degenerate solutions and the compliance rate -/

/-- C1 counterexample: the analyzer applied to the zero-route solution does
compute and assign a compliance rate, and that rate is 0 — the solution is
reported as 0% compliance, contradicting the claim that no compliance-rate
value is computed for an empty route list. -/
theorem C1_empty_solution_gets_zero_rate :
    (LoadAnalyzer.analyzeLoadDistribution emptySolution 12000).summary.complianceRate
        = 0 ∧
    emptySolution.routes = [] := by
  constructor
  · norm_num [LoadAnalyzer.analyzeLoadDistribution,
      LoadAnalyzer.calculateLoadSummary, emptySolution]
  · rfl

/-- C1 amended: for every solution with an empty route list the analyzer
still returns a summary; its compliance rate is 0 (the division by the route
count is guarded by `totalRoutes > 0`) and its `totalRoutes` is 0 — callers
detect degeneracy through the zero route count, not through a missing
compliance rate. -/
theorem C1_empty_routes_zero_rate (s : Solution) (t : ℤ)
    (h : s.routes = []) :
    (LoadAnalyzer.analyzeLoadDistribution s t).summary.complianceRate = 0 ∧
    (LoadAnalyzer.analyzeLoadDistribution s t).summary.totalRoutes = 0 := by
  constructor <;>
    simp [LoadAnalyzer.analyzeLoadDistribution,
      LoadAnalyzer.calculateLoadSummary, h]

/-- C1 witness: the amended statement at the concrete empty solution. -/
theorem C1_empty_routes_zero_rate_witness :
    (LoadAnalyzer.analyzeLoadDistribution emptySolution 12000).summary.complianceRate
        = 0 ∧
    (LoadAnalyzer.analyzeLoadDistribution emptySolution 12000).summary.totalRoutes
        = 0 :=
  C1_empty_routes_zero_rate emptySolution 12000 rfl

/-! ## C5 — compliance rate range and the 100% characterisation -/

/-- C5 counterexample: for the zero-route solution no route's load is below
the target (vacuously), yet the computed compliance rate is 0, not 100 — the
claimed equivalence fails as stated. -/
theorem C5_empty_solution_breaks_iff :
    (∀ r ∈ emptySolution.routes,
      (12000:ℤ) ≤ LoadAnalyzer.calculateRouteLoad r) ∧
    (LoadAnalyzer.analyzeLoadDistribution emptySolution 12000).summary.complianceRate
        = 0 ∧
    (LoadAnalyzer.analyzeLoadDistribution emptySolution 12000).summary.complianceRate
        ≠ 100 := by
  refine ⟨?_, ?_, ?_⟩
  · intro r hr; simp [emptySolution] at hr
  · norm_num [LoadAnalyzer.analyzeLoadDistribution,
      LoadAnalyzer.calculateLoadSummary, emptySolution]
  · norm_num [LoadAnalyzer.analyzeLoadDistribution,
      LoadAnalyzer.calculateLoadSummary, emptySolution]

/-- C5 amended: for every analyzed solution the compliance rate lies in
[0, 100], and it equals 100 exactly when no route's load is below the target
minimum load AND the route list is non-empty (a zero-route solution is
assigned rate 0). -/
theorem C5_compliance_rate_range (s : Solution) (t : ℤ) :
    0 ≤ (LoadAnalyzer.analyzeLoadDistribution s t).summary.complianceRate ∧
    (LoadAnalyzer.analyzeLoadDistribution s t).summary.complianceRate ≤ 100 ∧
    ((LoadAnalyzer.analyzeLoadDistribution s t).summary.complianceRate = 100 ↔
      (∀ r ∈ s.routes, t ≤ LoadAnalyzer.calculateRouteLoad r) ∧
        s.routes ≠ []) := by
  have hsplit := length_below_add_above s.routes t
  have hrate :
      (LoadAnalyzer.analyzeLoadDistribution s t).summary.complianceRate =
        if (s.routes.filter
              (fun r => LoadAnalyzer.calculateRouteLoad r < t)).length +
            (s.routes.filter
              (fun r => LoadAnalyzer.calculateRouteLoad r ≥ t)).length > 0 then
          (((s.routes.filter
              (fun r => LoadAnalyzer.calculateRouteLoad r ≥ t)).length : ℚ) /
            (((s.routes.filter
                (fun r => LoadAnalyzer.calculateRouteLoad r < t)).length +
              (s.routes.filter
                (fun r => LoadAnalyzer.calculateRouteLoad r ≥ t)).length : ℕ) : ℚ))
            * 100
        else 0 := by
    simp [LoadAnalyzer.analyzeLoadDistribution, LoadAnalyzer.calculateLoadSummary]
  obtain ⟨h0, h100le, hiff⟩ := compliance_arith
    (s.routes.filter (fun r => LoadAnalyzer.calculateRouteLoad r < t)).length
    (s.routes.filter (fun r => LoadAnalyzer.calculateRouteLoad r ≥ t)).length
  rw [hrate]
  refine ⟨h0, h100le, hiff.trans ?_⟩
  constructor
  · rintro ⟨hbz, hpos⟩
    have hfilter : s.routes.filter
        (fun r => LoadAnalyzer.calculateRouteLoad r < t) = [] :=
      List.length_eq_zero.mp hbz
    refine ⟨?_, ?_⟩
    · intro r hr
      by_contra hlt
      have hmem : r ∈ s.routes.filter
          (fun r => LoadAnalyzer.calculateRouteLoad r < t) := by
        rw [List.mem_filter]
        exact ⟨hr, by simpa using not_le.mp hlt⟩
      rw [hfilter] at hmem
      simp at hmem
    · intro hnil
      have hlen : s.routes.length = 0 := by rw [hnil]; rfl
      omega
  · rintro ⟨hall, hne⟩
    have hbz : (s.routes.filter
        (fun r => LoadAnalyzer.calculateRouteLoad r < t)).length = 0 := by
      rw [List.length_eq_zero, List.filter_eq_nil_iff]
      intro r hr
      simp only [decide_eq_true_eq]
      exact not_lt.mpr (hall r hr)
    refine ⟨hbz, ?_⟩
    rw [hsplit]
    exact List.length_pos.mpr hne

/-! ## C6 — retry classification of the API client -/

/-- C6: evaluating the embedded `makeApiCallWithRetry` at the failing input
(every attempt answers HTTP 400, `maxRetries = 3`, initial delay 1): the
client error is retried twice with exponential backoff (sleeps 1 then 2)
before the call finally throws after 3 attempts — the 4xx `throw` lands in the
function's own `catch`, so validation-class failures are retried exactly like
server-class ones, which the second conjunct shows for a 503-then-success
script. -/
theorem C6_client_error_retried :
    ApiClient.makeApiCallWithRetry (fun _ => .httpError 400) 3 1 =
      { result := none, attempts := 3, sleeps := [1, 2] } ∧
    ApiClient.makeApiCallWithRetry
        (fun n => if n < 3 then .httpError 503 else .ok 7) 3 1 =
      { result := some 7, attempts := 3, sleeps := [1, 2] } := by
  constructor <;> decide

/-! ## C10 — the shared route-load computation -/

/-- C10: in all three route-load computations (load analyzer, constraint
checker, solution parser) a job step without a `load` field contributes 0 —
inserting or removing such a step leaves the load unchanged — and only the
head of a present load array matters: replacing the tail components of the
array never changes the load, and the step contributes exactly its head.  The
three functions agree on every route. -/
theorem C10_route_load_model (v : ℤ) (pre post : List Step)
    (sm : Option RouteSummary) (a : ℤ) (rest rest2 : List ℤ) (route : Route) :
    (LoadAnalyzer.calculateRouteLoad
        { vehicle := v, steps := pre ++ { type := "job", load := none } :: post,
          summary := sm } =
      LoadAnalyzer.calculateRouteLoad
        { vehicle := v, steps := pre ++ post, summary := sm }) ∧
    (LoadAnalyzer.calculateRouteLoad
        { vehicle := v,
          steps := pre ++ { type := "job", load := some (a :: rest) } :: post,
          summary := sm } =
      LoadAnalyzer.calculateRouteLoad
        { vehicle := v,
          steps := pre ++ { type := "job", load := some (a :: rest2) } :: post,
          summary := sm }) ∧
    (LoadAnalyzer.calculateRouteLoad
        { vehicle := v,
          steps := pre ++ { type := "job", load := some (a :: rest) } :: post,
          summary := sm } =
      a + LoadAnalyzer.calculateRouteLoad
        { vehicle := v, steps := pre ++ post, summary := sm }) ∧
    ConstraintChecker.calculateRouteLoad route =
      LoadAnalyzer.calculateRouteLoad route ∧
    (SolutionParser.analyzeRoute route).totalLoad =
      LoadAnalyzer.calculateRouteLoad route := by
  refine ⟨?_, ?_, ?_, rfl, rfl⟩
  · simp [calculateRouteLoad_eq_sum, List.filter_append, List.filter_cons,
      List.map_append, List.sum_append]
  · simp [calculateRouteLoad_eq_sum, List.filter_append, List.filter_cons,
      List.map_append, List.sum_append]
  · simp [calculateRouteLoad_eq_sum, List.filter_append, List.filter_cons,
      List.map_append, List.sum_append]
    ring

/-! ## Evaluation helpers for the concrete controller runs -/

/-- `ceil(1/4000) = 1`, as needed by the concrete strategy computations. -/
theorem ceilQ1 : ⌈(1:ℚ)/4000⌉ = 1 := by
  rw [Int.ceil_eq_iff] <;> norm_num

/-- `ceil(3/8000) = 1`. -/
theorem ceilQ2 : ⌈(3:ℚ)/8000⌉ = 1 := by
  rw [Int.ceil_eq_iff] <;> norm_num

/-- `ceil(3/12000) = 1`. -/
theorem ceilQ3 : ⌈(3:ℚ)/12000⌉ = 1 := by
  rw [Int.ceil_eq_iff] <;> norm_num

/-- `ceil(1/2400) = 1`. -/
theorem ceilQ4 : ⌈(1:ℚ)/2400⌉ = 1 := by
  rw [Int.ceil_eq_iff] <;> norm_num

/-- `ceil(5/12000) = 1`. -/
theorem ceilQ5 : ⌈(5:ℚ)/12000⌉ = 1 := by
  rw [Int.ceil_eq_iff] <;> norm_num

/-- Distinctness of objective tags, used to evaluate `modifyObjective`. -/
theorem strNeA : ¬("maximize_load_balance" = "minimize_duration") := by decide

/-- Distinctness of objective tags. -/
theorem strNeB : ¬("minimize_vehicles_with_load_constraint" = "minimize_duration") := by
  decide

/-- Distinctness of objective tags. -/
theorem strNeC : ¬("minimize_vehicles_with_load_constraint" = "maximize_load_balance") := by
  decide

/-- Distinctness of priority tags, used to evaluate the priority sort. -/
theorem strNeD : ¬("medium" = "high") := by decide

/-! ## C2 — the SUCCESS check of the refinement loop -/

/-- C2: at a state whose current solution passes the constraint check and has
one route, the controller does **not** stop in SUCCESS — the guard of
`index.js` line 165 reads `analysis.routeCount`, a property the analyzer
result does not have, so `undefined > 0` is false and the loop instead
mutates, submits once (the scripted Oracle failure ends the run), and
finishes with no best solution retained. -/
theorem C2_passing_solution_not_success :
    (ConstraintChecker.checkSolutionConstraints solGood
      { minLoadPerRoute := some 10 }).passed = true ∧
    solGood.routes.length = 1 ∧
    Controller.runIterativeOptimization 10 1 [none] inputA solGood =
      .finished c2FinalState ∧
    c2FinalState.bestSolution = none ∧
    c2FinalState.oracleCalls = 1 ∧
    c2FinalState.iterationHistory = [] := by
  refine ⟨?_, rfl, ?_, rfl, rfl, rfl⟩
  · norm_num [ConstraintChecker.checkSolutionConstraints,
      ConstraintChecker.runCheck, ConstraintChecker.checkMinLoadConstraint,
      ConstraintChecker.jsTruthy, ConstraintChecker.calculateRouteLoad,
      solGood, soloRoute]
  · norm_num [Controller.runIterativeOptimization, Controller.runIter,
      Controller.loopBody, Controller.callOracle, Controller.isBetterSolution,
      LoadAnalyzer.analyzeLoadDistribution, LoadAnalyzer.calculateLoadSummary,
      LoadAnalyzer.calculateRouteLoad,
      ConstraintChecker.checkSolutionConstraints, ConstraintChecker.runCheck,
      ConstraintChecker.checkMinLoadConstraint,
      InputModifier.createLoadBalancingStrategy,
      InputModifier.objectiveStrategyPart, InputModifier.softeningStrategyPart,
      InputModifier.vehicleAdditionPart,
      InputModifier.stableSortByPriority, InputModifier.insertByPriority,
      InputModifier.priorityVal, InputModifier.Strategy.priority,
      InputModifier.relaxationCycle, InputModifier.capacityCycle,
      InputModifier.applyMultipleStrategies, InputModifier.modifyForLoadBalancing,
      InputModifier.addTimeWindowSoftening, InputModifier.modifyObjective,
      InputModifier.addVehicles, InputModifier.relaxTimeWindows,
      InputModifier.validateModifiedInput, InputModifier.validationErrors,
      inputA, solGood, soloRoute, c2FinalState, jsGtNat, jsEqNat, jsLtOpt]

/-! ## C3 — the degenerate-recovery adoption check -/

/-- C3: in the scripted run (iteration 1 succeeds with one route, iteration 2
returns zero routes, the relaxed recovery resubmission returns a one-route
solution), the controller does revert and resubmit with the relaxed set
(three Oracle calls), but the successful recovery response is **not** recorded
as a relaxed IterationRecord and not adopted: the guard of `index.js` line 253
reads `relaxedAnalysis.routeCount`, a property the analyzer result does not
have, so the adoption branch is unreachable and the run keeps the iteration-1
solution as current and best. -/
theorem C3_recovery_result_not_adopted :
    solRecovered.routes.length = 1 ∧
    c3Check (Controller.runIterativeOptimization 10 2 c3Responses inputA solBad) := by
  constructor
  · rfl
  · norm_num [c3Check, c3Responses, Controller.runIterativeOptimization,
      Controller.runIter, Controller.loopBody,
      Controller.callOracle, Controller.isBetterSolution,
      LoadAnalyzer.analyzeLoadDistribution, LoadAnalyzer.calculateLoadSummary,
      LoadAnalyzer.calculateRouteLoad,
      ConstraintChecker.checkSolutionConstraints, ConstraintChecker.runCheck,
      ConstraintChecker.checkMinLoadConstraint,
      InputModifier.createLoadBalancingStrategy,
      InputModifier.createRelaxedLoadBalancingStrategy,
      InputModifier.objectiveStrategyPart, InputModifier.softeningStrategyPart,
      InputModifier.vehicleAdditionPart,
      InputModifier.stableSortByPriority, InputModifier.insertByPriority,
      InputModifier.priorityVal, InputModifier.Strategy.priority,
      InputModifier.relaxationCycle, InputModifier.capacityCycle,
      InputModifier.applyMultipleStrategies, InputModifier.modifyForLoadBalancing,
      InputModifier.addTimeWindowSoftening, InputModifier.modifyObjective,
      InputModifier.addVehicles, InputModifier.relaxTimeWindows,
      InputModifier.validateModifiedInput, InputModifier.validationErrors,
      inputA, solGood, solB, solBad, solRecovered, emptySolution, soloRoute,
      jsGtNat, jsEqNat, jsLtOpt, ceilQ1, ceilQ2, ceilQ3, ceilQ4, ceilQ5,
      strNeA, strNeB, strNeC, strNeD]

/-! ## C4 — the best-solution selector -/

/-- C4: the selector violates the claimed order on concrete inputs.  The
candidate (2 routes, compliance 50%) and the incumbent (4 routes, compliance
50%) have equal compliance rates and the candidate has fewer routes, yet
`isBetterSolution` keeps the incumbent — the fewer-routes tie-break compares
the non-existent `routeCount` property (`undefined < undefined` is false).
Moreover a degenerate zero-route candidate IS selectable: with no incumbent
the function returns true before the (equally dead) zero-route rejection can
ever fire. -/
theorem C4_selector_order_violated :
    Controller.isBetterSolution 10 candTwoRoutes (some incFourRoutes) = false ∧
    (LoadAnalyzer.analyzeLoadDistribution candTwoRoutes 10).summary.complianceRate =
      (LoadAnalyzer.analyzeLoadDistribution incFourRoutes 10).summary.complianceRate ∧
    candTwoRoutes.routes.length < incFourRoutes.routes.length ∧
    Controller.isBetterSolution 10 emptySolution none = true ∧
    emptySolution.routes.length = 0 := by
  refine ⟨?_, ?_, by norm_num [candTwoRoutes, incFourRoutes], rfl, rfl⟩
  · norm_num [Controller.isBetterSolution, LoadAnalyzer.analyzeLoadDistribution,
      LoadAnalyzer.calculateLoadSummary, LoadAnalyzer.calculateRouteLoad,
      candTwoRoutes, incFourRoutes, soloRoute, jsGtNat, jsEqNat, jsLtOpt]
  · norm_num [LoadAnalyzer.analyzeLoadDistribution,
      LoadAnalyzer.calculateLoadSummary, LoadAnalyzer.calculateRouteLoad,
      candTwoRoutes, incFourRoutes, soloRoute]

/-! ## C7 — the vehicle-addition strategy of the generator -/

/-- Stable insertion produces a permutation of consing. -/
theorem insertByPriority_perm (x : InputModifier.Strategy)
    (l : List InputModifier.Strategy) :
    (InputModifier.insertByPriority x l).Perm (x :: l) := by
  induction l with
  | nil => exact List.Perm.refl _
  | cons y ys ih =>
      rw [InputModifier.insertByPriority]
      by_cases h : InputModifier.priorityVal x.priority ≥
          InputModifier.priorityVal y.priority
      · rw [if_pos h]
      · rw [if_neg h]
        exact (ih.cons y).trans (List.Perm.swap x y ys)

/-- The stable priority sort permutes its input. -/
theorem stableSortByPriority_perm (l : List InputModifier.Strategy) :
    (InputModifier.stableSortByPriority l).Perm l := by
  induction l with
  | nil => exact List.Perm.refl _
  | cons a l ih =>
      exact (insertByPriority_perm a _).trans (ih.cons a)

/-- The objective part contains no vehicle addition. -/
theorem filter_isVA_objective (analysis : LoadAnalyzer.LoadAnalysis) (i : ℕ) :
    (InputModifier.objectiveStrategyPart analysis i).filter
      InputModifier.Strategy.isVehicleAddition = [] := by
  rw [InputModifier.objectiveStrategyPart]
  split_ifs <;> simp [InputModifier.Strategy.isVehicleAddition]

/-- The softening part is no vehicle addition. -/
theorem filter_isVA_softening (i : ℕ) :
    ([InputModifier.softeningStrategyPart i]).filter
      InputModifier.Strategy.isVehicleAddition = [] := by
  simp [InputModifier.softeningStrategyPart,
    InputModifier.Strategy.isVehicleAddition]

/-- The vehicle-addition part consists of vehicle additions only. -/
theorem filter_isVA_vehiclePart (analysis : LoadAnalyzer.LoadAnalysis) (i : ℕ) :
    (InputModifier.vehicleAdditionPart analysis i).filter
        InputModifier.Strategy.isVehicleAddition =
      InputModifier.vehicleAdditionPart analysis i := by
  rw [InputModifier.vehicleAdditionPart]
  split_ifs <;> simp [InputModifier.Strategy.isVehicleAddition]

/-- C7: for every analysis and 1-based iteration index `i`, the generator's
output contains a vehicle-addition strategy exactly when the below-target
routes outnumber half the at/above-target routes, and then exactly one, with
vehicle count `min(ceil(totalLoadGap/12000) + i % 3, 15)`, capacity from the
fixed cycle `[14000, 12000, 16000, 10000, 18000]` indexed by `i % 5`, and
medium priority. -/
theorem C7_vehicle_addition_strategy (analysis : LoadAnalyzer.LoadAnalysis)
    (i j : ℕ) :
    (InputModifier.createLoadBalancingStrategy analysis i j).filter
        InputModifier.Strategy.isVehicleAddition =
      (if (analysis.routesBelowTarget.length : ℚ) >
          (analysis.routesAboveTarget.length : ℚ) / 2 then
        [InputModifier.Strategy.vehicleAddition
          (min (⌈(analysis.summary.totalLoadGap : ℚ) / 12000⌉ + (i % 3 : ℕ)) 15)
          (InputModifier.capacityCycle.getD (i % 5) 0)
          (1719282600, 1719315000) i "medium"]
      else []) := by
  have hperm : ((InputModifier.createLoadBalancingStrategy analysis i j).filter
      InputModifier.Strategy.isVehicleAddition).Perm
      ((InputModifier.objectiveStrategyPart analysis i ++
        [InputModifier.softeningStrategyPart i] ++
        InputModifier.vehicleAdditionPart analysis i).filter
        InputModifier.Strategy.isVehicleAddition) := by
    simp only [InputModifier.createLoadBalancingStrategy]
    exact (stableSortByPriority_perm _).filter _
  rw [List.filter_append, List.filter_append, filter_isVA_objective,
    filter_isVA_softening, filter_isVA_vehiclePart, List.nil_append,
    List.nil_append] at hperm
  have h05 : (analysis.routesAboveTarget.length : ℚ) * 0.5 =
      (analysis.routesAboveTarget.length : ℚ) / 2 := by
    norm_num
    ring
  by_cases hcond : (analysis.routesBelowTarget.length : ℚ) >
      (analysis.routesAboveTarget.length : ℚ) / 2
  · rw [if_pos hcond]
    rw [InputModifier.vehicleAdditionPart, if_pos (by rw [h05]; exact hcond)] at hperm
    exact List.perm_singleton.mp hperm
  · rw [if_neg hcond]
    rw [InputModifier.vehicleAdditionPart,
      if_neg (by rw [h05]; exact hcond)] at hperm
    exact hperm.eq_nil

/-! ## C8 — validation of the mutated instance -/

/-- The analyzer result carries no `routeCount` property. -/
theorem analyze_routeCount_none (s : Solution) (t : ℤ) :
    (LoadAnalyzer.analyzeLoadDistribution s t).routeCount = none := rfl

/-- Success of `validateModifiedInput` is emptiness of the collected error
list. -/
theorem validate_ok_iff_no_errors (input : ProblemInstance) :
    InputModifier.validateModifiedInput input = .ok true ↔
      InputModifier.validationErrors input = [] := by
  rw [InputModifier.validateModifiedInput]
  split_ifs with he
  · simp [List.isEmpty_iff.mp he]
  · have : ¬ InputModifier.validationErrors input = [] := by
      intro hnil
      exact he (by simp [hnil])
    simp [this]

/-- Transport a ∀ over `enum` entries to a ∀ over the underlying list. -/
theorem forall_enum_iff (l : List (ℤ × ℤ)) (P : ℤ × ℤ → Prop) :
    (∀ iw ∈ l.enum, P iw.2) ↔ ∀ w ∈ l, P w := by
  constructor
  · intro h w hw
    have : w ∈ l.enum.map Prod.snd := by rw [List.enum_map_snd]; exact hw
    obtain ⟨iw, hiw, heq⟩ := List.mem_map.mp this
    rw [← heq]
    exact h iw hiw
  · intro h iw hiw
    have : iw.2 ∈ l.enum.map Prod.snd := List.mem_map_of_mem Prod.snd hiw
    rw [List.enum_map_snd] at this
    exact h iw.2 this

/-- C8: `validateModifiedInput` passes exactly when every vehicle's (first)
capacity is positive and every vehicle and job time window has start < end;
when it fails, the error it throws carries every violation collected in one
pass — each violating vehicle capacity, vehicle window and job window
contributes its own message, the capacity message naming the vehicle's id —
and a failing validation aborts the loop pass before the Oracle submission
(the `loopBody` outcome is the thrown error list with the state, hence the
Oracle call counter, unchanged). -/
theorem C8_validation_model (input : ProblemInstance) :
    (InputModifier.validateModifiedInput input = .ok true ↔
      (∀ v ∈ input.vehicles, ∀ c ∈ v.capacity.head?, 0 < c) ∧
      (∀ v ∈ input.vehicles, v.time_window.1 < v.time_window.2) ∧
      (∀ j ∈ input.jobs, ∀ w ∈ j.time_windows, w.1 < w.2)) ∧
    (∀ v ∈ input.vehicles, ∀ c ∈ v.capacity.head?, c ≤ 0 →
      ("Vehicle " ++ toString v.id ++ " has invalid capacity: " ++ toString c) ∈
        InputModifier.validationErrors input) ∧
    (∀ v ∈ input.vehicles, v.time_window.2 ≤ v.time_window.1 →
      ("Vehicle " ++ toString v.id ++ " has invalid time window: " ++
          toString v.time_window.1 ++ " >= " ++ toString v.time_window.2) ∈
        InputModifier.validationErrors input) ∧
    (∀ j ∈ input.jobs, ∀ iw ∈ j.time_windows.enum, iw.2.2 ≤ iw.2.1 →
      ("Job " ++ toString j.id ++ " time window " ++ toString iw.1 ++
          " is invalid: " ++ toString iw.2.1 ++ " >= " ++ toString iw.2.2) ∈
        InputModifier.validationErrors input) ∧
    (∀ (minLoad : ℤ) (responses : List (Option Solution))
        (s : Controller.RunState) (errs : List String),
      InputModifier.validateModifiedInput
          (InputModifier.applyMultipleStrategies s.currentInput
            (InputModifier.createLoadBalancingStrategy
              (LoadAnalyzer.analyzeLoadDistribution s.currentSolution minLoad)
              s.iteration s.successfulIteration)) = .error errs →
        Controller.loopBody minLoad responses s = .thrown errs s) := by
  refine ⟨?_, ?_, ?_, ?_, ?_⟩
  · rw [validate_ok_iff_no_errors, InputModifier.validationErrors,
      List.append_eq_nil, List.append_eq_nil,
      List.filterMap_eq_nil_iff, List.filterMap_eq_nil_iff,
      List.flatMap_eq_nil_iff, and_assoc]
    constructor
    · rintro ⟨hcap, htw, hjob⟩
      refine ⟨?_, ?_, ?_⟩
      · intro v hv c hc
        have := hcap v hv
        rw [Option.mem_def] at hc
        rw [hc] at this
        simp only at this
        by_contra hle
        rw [if_pos (not_lt.mp hle)] at this
        cases this
      · intro v hv
        have := htw v hv
        simp only at this
        by_contra hle
        rw [if_pos (not_lt.mp hle)] at this
        cases this
      · intro j hj w hw
        have hnil := hjob j hj
        rw [List.filterMap_eq_nil_iff] at hnil
        by_contra hle
        have hmem : w ∈ j.time_windows.enum.map Prod.snd := by
          rw [List.enum_map_snd]; exact hw
        obtain ⟨iw, hiw, heq⟩ := List.mem_map.mp hmem
        have := hnil iw hiw
        rw [heq, if_pos (not_lt.mp hle)] at this
        cases this
    · rintro ⟨hcap, htw, hjob⟩
      refine ⟨?_, ?_, ?_⟩
      · intro v hv
        cases hc : v.capacity.head? with
        | none => simp [hc]
        | some c =>
            simp [hc, not_le.mpr (hcap v hv c (by rw [Option.mem_def, hc]))]
      · intro v hv
        simp [not_le.mpr (htw v hv)]
      · intro j hj
        rw [List.filterMap_eq_nil_iff]
        intro iw hiw
        have hw : iw.2 ∈ j.time_windows := by
          have : iw.2 ∈ j.time_windows.enum.map Prod.snd :=
            List.mem_map_of_mem Prod.snd hiw
          rw [List.enum_map_snd] at this
          exact this
        simp [not_le.mpr (hjob j hj iw.2 hw)]
  · intro v hv c hc hle
    rw [InputModifier.validationErrors]
    apply List.mem_append_left
    apply List.mem_append_left
    rw [List.mem_filterMap]
    refine ⟨v, hv, ?_⟩
    rw [Option.mem_def] at hc
    simp [hc, hle]
  · intro v hv hle
    rw [InputModifier.validationErrors]
    apply List.mem_append_left
    apply List.mem_append_right
    rw [List.mem_filterMap]
    exact ⟨v, hv, by simp [hle]⟩
  · intro j hj iw hiw hle
    rw [InputModifier.validationErrors]
    apply List.mem_append_right
    rw [List.mem_flatMap]
    refine ⟨j, hj, ?_⟩
    rw [List.mem_filterMap]
    exact ⟨iw, hiw, by simp [hle]⟩
  · intro minLoad responses s errs hval
    rw [Controller.loopBody]
    rw [analyze_routeCount_none]
    simp only [jsGtNat, Bool.and_false, Bool.false_eq_true, if_false]
    rw [hval]

/-- C8 witness: at the concrete instance with a capacity-0 vehicle (id 7),
validation fails and the collected errors contain the message naming vehicle
7, obtained by applying the model theorem. -/
theorem C8_validation_model_witness :
    ("Vehicle " ++ toString (7:ℤ) ++ " has invalid capacity: " ++
        toString (0:ℤ)) ∈ InputModifier.validationErrors badCapacityInput ∧
    InputModifier.validateModifiedInput badCapacityInput ≠ .ok true := by
  have h := C8_validation_model badCapacityInput
  constructor
  · exact h.2.1 { id := 7, capacity := [0], time_window := (0, 100) }
      (by simp [badCapacityInput]) 0 (by simp [Option.mem_def]) le_rfl
  · intro hok
    obtain ⟨hcap, -, -⟩ := h.1.mp hok
    have := hcap { id := 7, capacity := [0], time_window := (0, 100) }
      (by simp [badCapacityInput]) 0 (by simp [Option.mem_def])
    exact absurd this (by norm_num)

/-! ## C9 — mutation isolation of the input mutator -/

/-- Folding strategy applications over the heap never changes a
previously-allocated cell: every step only appends. -/
theorem foldHeap_preserves (ss : List InputModifier.Strategy)
    (acc : InputModifier.Heap × ℕ) (k : ℕ) (hk : k < acc.1.length) :
    ((ss.foldl InputModifier.applyStrategyHeap acc).1)[k]? = acc.1[k]? := by
  induction ss generalizing acc with
  | nil => rfl
  | cons s ss ih =>
      rw [List.foldl_cons]
      have hk2 : k < (InputModifier.applyStrategyHeap acc s).1.length := by
        simp only [InputModifier.applyStrategyHeap, List.length_append,
          List.length_cons, List.length_nil]
        omega
      rw [ih _ hk2]
      exact List.getElem?_append_left hk

/-- The result reference of the heap fold never moves below the initial
reference, and always points into the heap. -/
theorem foldHeap_ref_ge (ss : List InputModifier.Strategy)
    (acc : InputModifier.Heap × ℕ) (h : acc.2 < acc.1.length) :
    acc.2 ≤ (ss.foldl InputModifier.applyStrategyHeap acc).2 ∧
    (ss.foldl InputModifier.applyStrategyHeap acc).2 <
      (ss.foldl InputModifier.applyStrategyHeap acc).1.length := by
  induction ss generalizing acc with
  | nil => exact ⟨le_refl _, h⟩
  | cons s ss ih =>
      rw [List.foldl_cons]
      have h2 : (InputModifier.applyStrategyHeap acc s).2 <
          (InputModifier.applyStrategyHeap acc s).1.length := by
        simp [InputModifier.applyStrategyHeap]
      obtain ⟨h3, h4⟩ := ih _ h2
      refine ⟨le_trans ?_ h3, h4⟩
      simp only [InputModifier.applyStrategyHeap]
      omega

/-- C9: mutation isolation of `applyMultipleStrategies` on the explicit heap.
For every live reference and every strategy list, the original cell is
unchanged after the run, the result reference is a different (fresh) cell, an
empty strategy list returns a cell whose content is deep-equal to the
original, and at the value level applying no strategy is the identity. -/
theorem C9_mutation_isolation (h : InputModifier.Heap) (r : ℕ)
    (inst : ProblemInstance) (strategies : List InputModifier.Strategy)
    (hr : h[r]? = some inst) :
    ((InputModifier.applyMultipleStrategiesHeap h r strategies).1)[r]? =
      some inst ∧
    (InputModifier.applyMultipleStrategiesHeap h r strategies).2 ≠ r ∧
    (strategies = [] →
      ((InputModifier.applyMultipleStrategiesHeap h r strategies).1)[
        (InputModifier.applyMultipleStrategiesHeap h r strategies).2]? =
        some inst) ∧
    InputModifier.applyMultipleStrategies inst [] = inst := by
  have hrlt : r < h.length := by
    by_contra hge
    rw [List.getElem?_eq_none (le_of_not_lt hge)] at hr
    cases hr
  have hinit : h ++ [(h[r]?).getD InputModifier.emptyInstance] = h ++ [inst] := by
    rw [hr]
    rfl
  have hlen : r < (h ++ [inst]).length := by
    rw [List.length_append]
    omega
  have hlen2 : h.length < (h ++ [inst]).length := by
    rw [List.length_append]
    simp
  refine ⟨?_, ?_, ?_, rfl⟩
  · rw [InputModifier.applyMultipleStrategiesHeap]
    simp only [hinit]
    rw [foldHeap_preserves strategies (h ++ [inst], h.length) r hlen]
    rw [List.getElem?_append_left hrlt]
    exact hr
  · rw [InputModifier.applyMultipleStrategiesHeap]
    simp only [hinit]
    have := (foldHeap_ref_ge strategies (h ++ [inst], h.length) hlen2).1
    omega
  · intro hnil
    subst hnil
    rw [InputModifier.applyMultipleStrategiesHeap]
    simp only [hinit, List.foldl_nil]
    exact List.getElem?_concat_length h inst

/-- C9 witness: the isolation statement at a concrete heap holding one
instance, with a non-empty strategy list applied. -/
theorem C9_mutation_isolation_witness :
    ((InputModifier.applyMultipleStrategiesHeap [inputA] 0
        [.timeWindowSoftening 30 "high"]).1)[0]? = some inputA ∧
    (InputModifier.applyMultipleStrategiesHeap [inputA] 0
        [.timeWindowSoftening 30 "high"]).2 ≠ 0 ∧
    ([InputModifier.Strategy.timeWindowSoftening 30 "high"] = [] →
      ((InputModifier.applyMultipleStrategiesHeap [inputA] 0
          [.timeWindowSoftening 30 "high"]).1)[
        (InputModifier.applyMultipleStrategiesHeap [inputA] 0
          [.timeWindowSoftening 30 "high"]).2]? = some inputA) ∧
    InputModifier.applyMultipleStrategies inputA [] = inputA :=
  C9_mutation_isolation [inputA] 0 inputA
    [.timeWindowSoftening 30 "high"] rfl
